import Mathlib

/-!
Shallow embedding of `src/librustc_mir/borrow_check/diagnostics/region_errors.rs`:
the diagnostic-synthesis layer for region (lifetime) errors of the borrow checker.

Regions (`RegionVid`), spans and def-ids are modelled as `Nat`.  External
collaborators (the solved graph accessors of the region-inference context, the
Region Namer, the variable-name lookup, the source map) are fields of a
context structure `Ctx`; the functions of the source file are translated
definition by definition over that context.
-/

namespace RegionErrors

/-- `rustc::mir::ConstraintCategory` — the closed enumeration of reasons an
outlives edge was generated (declared in `rustc::mir`, consumed here). -/
inductive ConstraintCategory where
  | Return
  | Yield
  | UseAsConst
  | UseAsStatic
  | TypeAnnotation
  | Cast
  | CallArgument
  | ClosureBounds
  | SizedBound
  | CopyBound
  | OpaqueType
  | Boring
  | BoringNoLocation
  | Internal
  | Assignment
deriving DecidableEq, Repr

/-- `impl ConstraintDescription for ConstraintCategory { fn description(&self) }`
(region_errors.rs lines 24-45).  Must end with a space; empty for the
"boring" categories. -/
def description (c : ConstraintCategory) : String :=
  match c with
  | ConstraintCategory.Assignment => "assignment "
  | ConstraintCategory.Return => "returning this value "
  | ConstraintCategory.Yield => "yielding this value "
  | ConstraintCategory.UseAsConst => "using this value as a constant "
  | ConstraintCategory.UseAsStatic => "using this value as a static "
  | ConstraintCategory.Cast => "cast "
  | ConstraintCategory.CallArgument => "argument "
  | ConstraintCategory.TypeAnnotation => "type annotation "
  | ConstraintCategory.ClosureBounds => "closure body "
  | ConstraintCategory.SizedBound => "proving this value is `Sized` "
  | ConstraintCategory.CopyBound => "copying this value "
  | ConstraintCategory.OpaqueType => "opaque type "
  | ConstraintCategory.Boring => ""
  | ConstraintCategory.BoringNoLocation => ""
  | ConstraintCategory.Internal => ""

/-- A string ends with exactly one trailing space: its last character is a
space and the character before it (if any) is not. -/
def endsWithOneTrailingSpace (s : String) : Bool :=
  (s.data.getLast? == some (Char.ofNat 32)) &&
    !(s.data.dropLast.getLast? == some (Char.ofNat 32))

/-- `ty::BoundRegion` — only the `BrEnv` discriminant (the synthesized
closure-environment marker) is inspected by this file; all other
discriminants are collapsed into `BrOther`. -/
inductive BoundRegion where
  | BrEnv
  | BrOther
deriving DecidableEq, Repr

/-- The shapes of `ty::Region` this file inspects: a free region carrying its
bound-region discriminant (`ty::ReFree`), the static region (`ty::ReStatic`),
and every other region kind collapsed into `ReOtherKind`. -/
inductive RegionKind where
  | ReFree (bound_region : BoundRegion)
  | ReStatic
  | ReOtherKind
deriving DecidableEq, Repr

/-- `ty::ClosureKind`. -/
inductive ClosureKind where
  | Fn
  | FnMut
  | FnOnce
deriving DecidableEq, Repr

/-- `crate::borrow_check::universal_regions::DefiningTy` — the kind of
construct being borrow-checked (def-id and substs modelled as `Nat`). -/
inductive DefiningTy where
  | Closure (did : Nat) (substs : Nat)
  | Generator (did : Nat) (substs : Nat)
  | FnDef (did : Nat) (substs : Nat)
  | Const (did : Nat) (substs : Nat)
deriving DecidableEq, Repr

/-- The `ty::TyS.kind` shapes inspected by `add_static_impl_trait_suggestion`:
`ty::Opaque(did, substs)` versus anything else. -/
inductive TyKind where
  | OpaqueTy (did : Nat) (substs : Nat)
  | OtherTy
deriving DecidableEq, Repr

/-- A predicate of the instantiated bounds of an opaque type, as inspected by
`add_static_impl_trait_suggestion`: `ty::Predicate::TypeOutlives` whose
skipped binder is `ty::OutlivesPredicate(_, region)` (the first component is
never inspected, so it is dropped), versus any other predicate. -/
inductive Predicate where
  | TypeOutlives (region : RegionKind)
  | OtherPredicate
deriving DecidableEq, Repr

/-- `RegionNameSource` (from the sibling `region_name` module): the
classification of where a region display-name came from.  The variants and
their span/string payload arities are those matched by
`report_fnmut_error` (lines 266-278), plus the variants that fall into its
catch-all arm (`Static`, `AnonRegionFromYieldTy`). -/
inductive RegionNameSource where
  | NamedEarlyBoundRegion (sp : Nat)
  | NamedFreeRegion (sp : Nat)
  | Static
  | SynthesizedFreeEnvRegion (sp : Nat) (note2 : String)
  | CannotMatchHirTy (sp : Nat) (s : String)
  | MatchedHirTy (sp : Nat)
  | MatchedAdtAndSegment (sp : Nat)
  | AnonRegionFromUpvar (sp : Nat) (s : String)
  | AnonRegionFromOutput (sp : Nat) (s1 : String) (s2 : String)
  | AnonRegionFromYieldTy (sp : Nat) (s : String)
deriving DecidableEq, Repr

/-- `RegionName` (sibling `region_name` module, consumed here): display text
plus name source.  `was_named` and `highlights` model the externally defined
`RegionName::was_named()` and `RegionName::highlight_region_name(diag)`
(the latter as the span labels it appends), which live outside this source
file; this file only consumes their results. -/
structure RegionName where
  name : String
  source : RegionNameSource
  was_named : Bool
  highlights : List (Nat × String)
deriving DecidableEq, Repr

/-- The diagnostic object under construction (`DiagnosticBuilder`): primary
message and span, secondary span labels, notes, helps, and structured
span suggestions `(span, message, replacement)`, each list in emission
order. -/
structure Diagnostic where
  message : String
  primarySpan : Nat
  spanLabels : List (Nat × String)
  notes : List String
  helps : List String
  suggestions : List (Nat × String × String)
deriving DecidableEq, Repr

/-- `sess.struct_span_err(span, msg)`. -/
def struct_span_err (span : Nat) (msg : String) : Diagnostic :=
  ⟨msg, span, [], [], [], []⟩

/-- `diag.span_label(span, label)`. -/
def Diagnostic.span_label (d : Diagnostic) (span : Nat) (label : String) : Diagnostic :=
  { d with spanLabels := d.spanLabels ++ [(span, label)] }

/-- `diag.note(msg)`. -/
def Diagnostic.note (d : Diagnostic) (msg : String) : Diagnostic :=
  { d with notes := d.notes ++ [msg] }

/-- `diag.help(msg)`. -/
def Diagnostic.help (d : Diagnostic) (msg : String) : Diagnostic :=
  { d with helps := d.helps ++ [msg] }

/-- `diag.span_suggestion(span, msg, suggestion, applicability)`; the
applicability tier (always `MachineApplicable` here) is not modelled. -/
def Diagnostic.span_suggestion (d : Diagnostic) (span : Nat) (msg : String)
    (suggestion : String) : Diagnostic :=
  { d with suggestions := d.suggestions ++ [(span, msg, suggestion)] }

/-- `RegionName::highlight_region_name(diag)` (external, `region_name`
module): appends the highlight labels of the name to the diagnostic. -/
def highlight_region_name (n : RegionName) (d : Diagnostic) : Diagnostic :=
  { d with spanLabels := d.spanLabels ++ n.highlights }

/-- Modelled from the spec: `borrowck_errors::borrowed_data_escapes_closure`
(in `crate::util::borrowck_errors`, outside this source file) builds the
primary "borrowed data escapes outside of {escapes_from}" diagnostic at the
given span (spec section 4.5). -/
def borrowed_data_escapes_closure (span : Nat) (escapes_from : String) : Diagnostic :=
  struct_span_err span ("borrowed data escapes outside of " ++ escapes_from)

/-- `ErrorConstraintInfo` (lines 95-105): the resolved blame record threaded
through the specialized reporters. -/
structure ErrorConstraintInfo where
  fr : Nat
  fr_is_local : Bool
  outlived_fr : Nat
  outlived_fr_is_local : Bool
  category : ConstraintCategory
  span : Nat
deriving DecidableEq, Repr

/-- Modelled from the spec: the Cross-Error Suggestion Aggregator
(`OutlivesSuggestionBuilder`, sibling `outlives_suggestion` module)
accumulates, per reported violation, the `ErrorConstraintInfo` fed to
`intermediate_suggestion` and the `(fr, outlived_fr)` pairs fed to
`collect_constraint` (spec sections 2.7 and 6).  Only the record of what was
fed to it is modelled; its own later flush output is out of scope here. -/
structure OutlivesSuggestionBuilder where
  intermediates : List ErrorConstraintInfo
  constraints : List (Nat × Nat)
deriving DecidableEq, Repr

/-- `outlives_suggestion.intermediate_suggestion(mbcx, errci, renctx, diag)`:
records the fed `ErrorConstraintInfo`. -/
def OutlivesSuggestionBuilder.intermediate_suggestion
    (agg : OutlivesSuggestionBuilder) (errci : ErrorConstraintInfo) :
    OutlivesSuggestionBuilder :=
  { agg with intermediates := agg.intermediates ++ [errci] }

/-- `outlives_suggestion.collect_constraint(fr, outlived_fr)`. -/
def OutlivesSuggestionBuilder.collect_constraint
    (agg : OutlivesSuggestionBuilder) (fr outlived_fr : Nat) :
    OutlivesSuggestionBuilder :=
  { agg with constraints := agg.constraints ++ [(fr, outlived_fr)] }

/-- The ambient state of `RegionInferenceContext` plus `MirBorrowckCtxt`:
the solved-graph accessors used by `to_error_region_vid`, plus the external
collaborators (Blame Selector, nice-region-error sub-reporter, Region Namer,
variable-name lookup, source map) consumed by the reporters.  Region
variables, def-ids, substs and spans are `Nat`. -/
structure Ctx where
  /-- Number of region variables; used as recursion fuel for
  `to_error_region_vid` (the upper-bound relation is acyclic, so any fuel of
  at least the region count computes the fixed point). -/
  numRegions : Nat
  /-- `self.universal_regions.is_universal_region(r)`. -/
  is_universal_region : Nat → Bool
  /-- `self.constraint_sccs.scc(r)`. -/
  scc : Nat → Nat
  /-- `self.universal_upper_bound(r)`. -/
  universal_upper_bound : Nat → Nat
  /-- `self.scc_values.contains(scc, bound)`. -/
  scc_values_contains : Nat → Nat → Bool
  /-- `self.definitions[r].external_name`. -/
  external_name : Nat → Option RegionKind
  /-- `self.universal_regions.defining_ty`. -/
  defining_ty : DefiningTy
  /-- `substs.as_closure().kind_ty(def_id, tcx).to_opt_closure_kind()` for a
  def-id and substs of a closure. -/
  closure_kind : Nat → Nat → Option ClosureKind
  /-- `self.universal_regions.is_local_free_region(r)`. -/
  is_local_free_region : Nat → Bool
  /-- `self.universal_regions.unnormalized_output_ty.is_closure()`. -/
  unnormalized_output_ty_is_closure : Bool
  /-- `tcx.is_closure(mbcx.mir_def_id)`. -/
  mir_def_is_closure : Bool
  /-- `self.best_blame_constraint(body, fr, fr_origin, predicate)` with the
  predicate `provides_universal_region(r, fr, outlived_fr)`: deterministic
  `(category, span)` for the pair (the middle "excluded detail" component is
  never used here and is dropped). -/
  best_blame_constraint : Nat → Nat → ConstraintCategory × Nat
  /-- `NiceRegionError::new_from_span(infcx, span, o, f, tables)
  .try_report_from_nll()`: arguments in source order `(span, o, f)`. -/
  try_report_from_nll : Nat → RegionKind → RegionKind → Option Diagnostic
  /-- `self.give_region_a_name(mbcx, renctx, r)` — the Region Namer
  (sibling `region_name` module). -/
  give_region_a_name : Nat → Option RegionName
  /-- `self.get_var_name_and_span_for_region(tcx, body, local_names, upvars, r)`. -/
  get_var_name_and_span : Nat → Option (Option String × Nat)
  /-- `infcx.tcx.is_suitable_region(f).map(|r| r.def_id)`. -/
  is_suitable_region : RegionKind → Option Nat
  /-- `infcx.tcx.return_type_impl_trait(id)`: the kind of the returned type
  (its span component is never used here and is dropped). -/
  return_type_impl_trait : Nat → Option TyKind
  /-- `infcx.tcx.predicates_of(did).instantiate(tcx, substs).predicates`. -/
  predicates_of_instantiated : Nat → Nat → List Predicate
  /-- `infcx.tcx.def_span(did)`. -/
  def_span : Nat → Nat
  /-- `infcx.tcx.sess.source_map().span_to_snippet(span)`, with `Err` as
  `none`. -/
  span_to_snippet : Nat → Option String

/-- `to_error_region_vid` (lines 120-132), with explicit recursion fuel:
if `r` is universal return it, otherwise follow the universal upper bound of
the strongly-connected component of `r` when that bound lies in its
value set, else `None`.  The source recursion is bounded by acyclicity of
the upper-bound relation (spec section 4.1); `numRegions` fuel suffices. -/
def to_error_region_vid (ctx : Ctx) : Nat → Nat → Option Nat
  | 0, _ => none
  | Nat.succ fuel, r =>
    if ctx.is_universal_region r then
      some r
    else
      let r_scc := ctx.scc r
      let upper_bound := ctx.universal_upper_bound r
      if ctx.scc_values_contains r_scc upper_bound then
        to_error_region_vid ctx fuel upper_bound
      else
        none

/-- `to_error_region` (lines 114-116):
`self.to_error_region_vid(r).and_then(|r| self.definitions[r].external_name)`. -/
def to_error_region (ctx : Ctx) (r : Nat) : Option RegionKind :=
  (to_error_region_vid ctx ctx.numRegions r).bind fun r2 => ctx.external_name r2

/-- `is_closure_fn_mut` (lines 135-146): `fr` resolves to a free region whose
bound region is `BrEnv`, the defining construct is a closure, and that
inferred kind of that closure is `FnMut`; `false` in every other case. -/
def is_closure_fn_mut (ctx : Ctx) (fr : Nat) : Bool :=
  match to_error_region ctx fr with
  | some (RegionKind.ReFree bound_region) =>
    match bound_region with
    | BoundRegion.BrEnv =>
      match ctx.defining_ty with
      | DefiningTy.Closure did substs =>
        some ClosureKind.FnMut == ctx.closure_kind did substs
      | _ => false
    | _ => false
  | _ => false

/-- `snippet.ends_with(";")` — equivalently, the last character is the
(one-byte) ASCII semicolon. -/
def endsWithSemicolon (s : String) : Bool :=
  s.data.getLast? == some (Char.ofNat 59)

/-- `&snippet[..snippet.len() - 1]` for a snippet ending in the one-byte
character `;`: the snippet without its last character. -/
def dropLastChar (s : String) : String :=
  ⟨s.data.dropLast⟩

/-- The `suggestable_fr_name` computation (lines 507-511): the display name
when the region was named, the elided-lifetime placeholder otherwise. -/
def suggestable_fr_name (fr_name : RegionName) : String :=
  if fr_name.was_named then fr_name.name else "\x27_"

/-- The `suggestion` text construction (lines 512-517): append
`" + <name>"`, inserting before a terminating semicolon when present. -/
def static_suggestion_text (snippet sugg_name : String) : String :=
  if endsWithSemicolon snippet then
    dropLastChar snippet ++ " + " ++ sugg_name ++ ";"
  else
    snippet ++ " + " ++ sugg_name

/-- The opaque-return-type lookup chain (lines 464-470):
`is_suitable_region(f).map(|r| r.def_id).map(|id| return_type_impl_trait(id))
.unwrap_or(None)`, matched against `Some((TyS { kind: Opaque(did, substs) }, _))`;
yields the `(did, substs)` of the opaque kind when the chain produces one. -/
def return_impl_trait_opaque (ctx : Ctx) (f : RegionKind) : Option (Nat × Nat) :=
  match ((ctx.is_suitable_region f).map fun id => ctx.return_type_impl_trait id).getD none with
  | some (TyKind.OpaqueTy did substs) => some (did, substs)
  | _ => none

/-- The `has_static_predicate` computation (lines 475-492): some instantiated
predicate of the opaque type is a `TypeOutlives` whose outlived region is
`ReStatic`. -/
def has_static_predicate (ctx : Ctx) (did substs : Nat) : Bool :=
  (ctx.predicates_of_instantiated did substs).any fun p =>
    match p with
    | Predicate.TypeOutlives RegionKind.ReStatic => true
    | _ => false

/-- `add_static_impl_trait_suggestion` (lines 452-532): when `fr` resolves to
some region and `outlived_fr` resolves to `ReStatic` and the suitable region
has an opaque (`impl Trait`) return type, either emit the replace-with-static
help (when a static outlives predicate already exists) or, when the snippet
at the span of the opaque type is retrievable, a machine-applicable span
suggestion adding the lifetime as a bound; in every other case the
diagnostic is returned unchanged. -/
def add_static_impl_trait_suggestion (ctx : Ctx) (diag : Diagnostic) (fr : Nat)
    (fr_name : RegionName) (outlived_fr : Nat) : Diagnostic :=
  match to_error_region ctx fr, to_error_region ctx outlived_fr with
  | some f, some RegionKind.ReStatic =>
    match return_impl_trait_opaque ctx f with
    | some (did, substs) =>
      if has_static_predicate ctx did substs then
        diag.help ("consider replacing `" ++ fr_name.name ++ "` with `\x27static`")
      else
        match ctx.span_to_snippet (ctx.def_span did) with
        | some snippet =>
          diag.span_suggestion (ctx.def_span did)
            ("to allow this `impl Trait` to capture borrowed data with lifetime `"
              ++ fr_name.name ++ "`, add `" ++ suggestable_fr_name fr_name ++ "` as a bound")
            (static_suggestion_text snippet (suggestable_fr_name fr_name))
        | none => diag
    | none => diag
  | _, _ => diag

/-- `report_general_error` (lines 387-441).  The two `.unwrap()` calls on
`give_region_a_name` are modelled by returning `none` (the panic/abort)
when the Namer yields no name. -/
def report_general_error (ctx : Ctx) (errci : ErrorConstraintInfo) :
    Option Diagnostic :=
  let diag := struct_span_err errci.span "lifetime may not live long enough"
  let mir_def_name := if ctx.mir_def_is_closure then "closure" else "function"
  match ctx.give_region_a_name errci.fr with
  | none => none
  | some fr_name =>
    let diag := highlight_region_name fr_name diag
    match ctx.give_region_a_name errci.outlived_fr with
    | none => none
    | some outlived_fr_name =>
      let diag := highlight_region_name outlived_fr_name diag
      let diag :=
        if errci.category = ConstraintCategory.Return ∧ errci.outlived_fr_is_local = true then
          diag.span_label errci.span
            (mir_def_name ++ " was supposed to return data with lifetime `"
              ++ outlived_fr_name.name ++ "` but it is returning data with lifetime `"
              ++ fr_name.name ++ "`")
        else
          diag.span_label errci.span
            (description errci.category ++ "requires that `" ++ fr_name.name
              ++ "` must outlive `" ++ outlived_fr_name.name ++ "`")
      some (add_static_impl_trait_suggestion ctx diag errci.fr fr_name errci.outlived_fr)

/-- `report_fnmut_error` (lines 240-287).  The `.unwrap()` on
`give_region_a_name(outlived_fr)` is modelled by returning `none` (the
panic/abort) when the Namer yields no name. -/
def report_fnmut_error (ctx : Ctx) (errci : ErrorConstraintInfo) :
    Option Diagnostic :=
  let diag := struct_span_err errci.span "captured variable cannot escape `FnMut` closure body"
  let message :=
    if ctx.unnormalized_output_ty_is_closure then
      "returns a closure that contains a reference to a captured variable, which then escapes the closure body"
    else
      "returns a reference to a captured variable which escapes the closure body"
  let diag := diag.span_label errci.span message
  match ctx.give_region_a_name errci.outlived_fr with
  | none => none
  | some outlived_name =>
    let diag :=
      match outlived_name.source with
      | RegionNameSource.NamedEarlyBoundRegion fr_span
      | RegionNameSource.NamedFreeRegion fr_span
      | RegionNameSource.SynthesizedFreeEnvRegion fr_span _
      | RegionNameSource.CannotMatchHirTy fr_span _
      | RegionNameSource.MatchedHirTy fr_span
      | RegionNameSource.MatchedAdtAndSegment fr_span
      | RegionNameSource.AnonRegionFromUpvar fr_span _
      | RegionNameSource.AnonRegionFromOutput fr_span _ _ =>
        diag.span_label fr_span "inferred to be a `FnMut` closure"
      | _ => diag
    let diag := diag.note "`FnMut` closures only have access to their captured variables while they are executing..."
    some (diag.note "...therefore, they cannot allow references to captured variables to escape")

/-- The `escapes_from` computation (lines 324-329). -/
def escapes_from (ctx : Ctx) : String :=
  match ctx.defining_ty with
  | DefiningTy.Closure _ _ => "closure"
  | DefiningTy.Generator _ _ => "generator"
  | DefiningTy.FnDef _ _ => "function"
  | DefiningTy.Const _ _ => "const"

/-- `report_escaping_data_error` (lines 301-370): look up variable names and
spans for both regions; when neither resolved, or the category is an
assignment inside a plain function, or the construct is a const body, revert
to the general error with localities forced `(true, false)`; otherwise build
the escaping-data diagnostic, labelling each resolved name independently. -/
def report_escaping_data_error (ctx : Ctx) (errci : ErrorConstraintInfo) :
    Option Diagnostic :=
  let fr_name_and_span := ctx.get_var_name_and_span errci.fr
  let outlived_fr_name_and_span := ctx.get_var_name_and_span errci.outlived_fr
  let esc := escapes_from ctx
  if (fr_name_and_span.isNone ∧ outlived_fr_name_and_span.isNone)
      ∨ (errci.category = ConstraintCategory.Assignment ∧ esc = "function")
      ∨ esc = "const" then
    report_general_error ctx
      { errci with fr_is_local := true, outlived_fr_is_local := false }
  else
    let diag := borrowed_data_escapes_closure errci.span esc
    let diag :=
      match outlived_fr_name_and_span with
      | some (some outlived_fr_name, outlived_fr_span) =>
        diag.span_label outlived_fr_span
          ("`" ++ outlived_fr_name ++ "` is declared here, outside of the "
            ++ esc ++ " body")
      | _ => diag
    let diag :=
      match fr_name_and_span with
      | some (some fr_name, fr_span) =>
        (diag.span_label fr_span
          ("`" ++ fr_name ++ "` is a reference that is only valid in the "
            ++ esc ++ " body")).span_label errci.span
          ("`" ++ fr_name ++ "` escapes the " ++ esc ++ " body here")
      | _ => diag
    some diag

/-- Which branch of `report_error` produced the returned diagnostic: the
nice-region-error early path, or one of the three specialized reporters of
the dispatch match (lines 200-221). -/
inductive Reporter where
  | niceRegionError
  | fnmutEscape
  | escapingData
  | general
deriving DecidableEq, Repr

/-- The observable outcome of `report_error`: the branch taken, the returned
diagnostic (`none` models a panic in an unchecked `.unwrap()` inside the
chosen reporter), and the suggestion Aggregator state after the call. -/
structure ReportResult where
  reporter : Reporter
  diag : Option Diagnostic
  agg : OutlivesSuggestionBuilder
deriving DecidableEq, Repr

/-- The `ErrorConstraintInfo` constructed by `report_error` (lines 191-198)
for a violating pair. -/
def mk_error_constraint_info (ctx : Ctx) (fr outlived_fr : Nat) :
    ErrorConstraintInfo :=
  let cs := ctx.best_blame_constraint fr outlived_fr
  ⟨fr, ctx.is_local_free_region fr, outlived_fr,
    ctx.is_local_free_region outlived_fr, cs.1, cs.2⟩

/-- The nice-region-error early path of `report_error` (lines 172-179): when
both regions resolve to error regions, try the nice sub-reporter. -/
def nice_region_error (ctx : Ctx) (fr outlived_fr span : Nat) :
    Option Diagnostic :=
  match to_error_region ctx fr, to_error_region ctx outlived_fr with
  | some f, some o => ctx.try_report_from_nll span o f
  | _, _ => none

/-- `report_error` (lines 156-222): select the blame constraint, attempt the
nice-region-error path and return its diagnostic immediately when it
produces one; otherwise build the `ErrorConstraintInfo` and dispatch on
`(category, fr_is_local, outlived_fr_is_local)` — the `Return/local/foreign`
arm guarded by `is_closure_fn_mut` runs the FnMut reporter, the
`Assignment` and `CallArgument` local/foreign arms run the escaping-data
reporter and feed the Aggregator, and every remaining case (including the
guarded arm with a failed guard) runs the general reporter and feeds the
Aggregator.  The ordered arms of the source match are rendered as an ordered
test chain. -/
def report_error (ctx : Ctx) (fr outlived_fr : Nat)
    (agg : OutlivesSuggestionBuilder) : ReportResult :=
  let cs := ctx.best_blame_constraint fr outlived_fr
  let category := cs.1
  let span := cs.2
  match nice_region_error ctx fr outlived_fr span with
  | some diag => ⟨Reporter.niceRegionError, some diag, agg⟩
  | none =>
    let fr_is_local := ctx.is_local_free_region fr
    let outlived_fr_is_local := ctx.is_local_free_region outlived_fr
    let errci : ErrorConstraintInfo :=
      ⟨fr, fr_is_local, outlived_fr, outlived_fr_is_local, category, span⟩
    if category = ConstraintCategory.Return ∧ fr_is_local = true
        ∧ outlived_fr_is_local = false ∧ is_closure_fn_mut ctx fr = true then
      ⟨Reporter.fnmutEscape, report_fnmut_error ctx errci, agg⟩
    else if (category = ConstraintCategory.Assignment
          ∨ category = ConstraintCategory.CallArgument)
        ∧ fr_is_local = true ∧ outlived_fr_is_local = false then
      ⟨Reporter.escapingData, report_escaping_data_error ctx errci,
        (agg.intermediate_suggestion errci).collect_constraint fr outlived_fr⟩
    else
      ⟨Reporter.general, report_general_error ctx errci,
        (agg.intermediate_suggestion errci).collect_constraint fr outlived_fr⟩

/-! Concrete instances used to evaluate the development on closed inputs. -/

/-- A concrete region name (the written lifetime tick-a). -/
def exName : RegionName :=
  ⟨"\x27a", RegionNameSource.Static, true, []⟩

/-- A concrete context whose classifier input is `Return`, local `fr = 0`,
foreign `outlived_fr = 1`, with `fr` resolving to a `BrEnv` free region of an
`FnMut` closure. -/
def exCtxFnMut : Ctx where
  numRegions := 2
  is_universal_region := fun _ => true
  scc := fun r => r
  universal_upper_bound := fun r => r
  scc_values_contains := fun _ _ => true
  external_name := fun r =>
    if r = 0 then some (RegionKind.ReFree BoundRegion.BrEnv) else some RegionKind.ReStatic
  defining_ty := DefiningTy.Closure 4 9
  closure_kind := fun _ _ => some ClosureKind.FnMut
  is_local_free_region := fun r => r == 0
  unnormalized_output_ty_is_closure := false
  mir_def_is_closure := true
  best_blame_constraint := fun _ _ => (ConstraintCategory.Return, 7)
  try_report_from_nll := fun _ _ _ => none
  give_region_a_name := fun _ => some exName
  get_var_name_and_span := fun _ => none
  is_suitable_region := fun _ => none
  return_type_impl_trait := fun _ => none
  predicates_of_instantiated := fun _ _ => []
  def_span := fun _ => 11
  span_to_snippet := fun _ => none

/-- Like `exCtxFnMut` but with a boring blame category, so the classifier
selects the general reporter. -/
def exCtxGeneral : Ctx :=
  { exCtxFnMut with best_blame_constraint := fun _ _ => (ConstraintCategory.Boring, 7) }

/-- A diagnostic produced by the nice-region-error sub-reporter in
`exCtxNice`. -/
def exNiceDiag : Diagnostic :=
  struct_span_err 3 "nice"

/-- Like `exCtxFnMut` but the nice-region-error sub-reporter succeeds. -/
def exCtxNice : Ctx :=
  { exCtxFnMut with try_report_from_nll := fun _ _ _ => some exNiceDiag }

/-- Like `exCtxFnMut` but `fr` has a suitable region with an opaque return
type whose instantiated bounds carry a static outlives predicate. -/
def exCtxStatic : Ctx :=
  { exCtxFnMut with
      is_suitable_region := fun _ => some 3
      return_type_impl_trait := fun _ => some (TyKind.OpaqueTy 5 9)
      predicates_of_instantiated := fun _ _ => [Predicate.TypeOutlives RegionKind.ReStatic] }

/-- Like `exCtxFnMut` but the Region Namer yields no name for any region. -/
def exCtxNoName : Ctx :=
  { exCtxFnMut with give_region_a_name := fun _ => none }

/-- A concrete `ErrorConstraintInfo` for `fr = 0`, `outlived_fr = 1`,
category `CallArgument`, span `7`. -/
def errci0 : ErrorConstraintInfo :=
  ⟨0, true, 1, false, ConstraintCategory.CallArgument, 7⟩

/-- A concrete diagnostic to feed the suggestion builder. -/
def exDiag : Diagnostic :=
  struct_span_err 7 "lifetime may not live long enough"

/-! The claims. -/

/-- C4: for every value of the closed `ConstraintCategory` enumeration,
`description` is either the empty string or ends with exactly one trailing
space, and the three boring/internal categories map to the empty string. -/
theorem C4_description_trailing_space :
    (∀ c : ConstraintCategory,
        description c = "" ∨ endsWithOneTrailingSpace (description c) = true) ∧
    description ConstraintCategory.Boring = "" ∧
    description ConstraintCategory.BoringNoLocation = "" ∧
    description ConstraintCategory.Internal = "" := by
  refine ⟨fun c => ?_, rfl, rfl, rfl⟩
  cases c <;> decide

/-- C8: `is_closure_fn_mut` returns `true` for a region iff it resolves to a
free region whose bound-region discriminant is the synthesized environment
marker `BrEnv`, the defining construct is a closure, and the
inferred kind is `FnMut`. -/
theorem C8_is_closure_fn_mut_iff (ctx : Ctx) (fr : Nat) :
    is_closure_fn_mut ctx fr = true ↔
      to_error_region ctx fr = some (RegionKind.ReFree BoundRegion.BrEnv) ∧
      ∃ did substs, ctx.defining_ty = DefiningTy.Closure did substs ∧
        ctx.closure_kind did substs = some ClosureKind.FnMut := by
  unfold is_closure_fn_mut
  cases h : to_error_region ctx fr with
  | none => simp [h]
  | some rk =>
    cases rk with
    | ReFree br =>
      cases br with
      | BrEnv =>
        cases hd : ctx.defining_ty with
        | Closure did substs =>
          simp only [h, hd, Option.some.injEq, true_and]
          constructor
          · intro hb
            exact ⟨did, substs, rfl, (beq_iff_eq.mp hb).symm⟩
          · rintro ⟨d, s, hds, hk⟩
            obtain ⟨rfl, rfl⟩ := by
              have := DefiningTy.Closure.injEq did substs d s ▸ hds
              exact (DefiningTy.Closure.inj hds)
            exact beq_iff_eq.mpr hk.symm
        | Generator did substs => simp [h, hd]
        | FnDef did substs => simp [h, hd]
        | Const did substs => simp [h, hd]
      | BrOther => simp [h]
    | ReStatic => simp [h]
    | ReOtherKind => simp [h]

/-- String append acts as list append on the character data. -/
theorem mk_append_mk (l m : List Char) :
    String.mk l ++ String.mk m = String.mk (l ++ m) :=
  rfl

/-- A string extended with a final semicolon satisfies `endsWithSemicolon`. -/
theorem endsWithSemicolon_concat (l : List Char) :
    endsWithSemicolon (String.mk (l ++ [Char.ofNat 59])) = true := by
  simp [endsWithSemicolon, List.getLast?_concat]

/-- Dropping the last character of a string extended with a final semicolon
recovers the string. -/
theorem dropLastChar_concat (l : List Char) :
    dropLastChar (String.mk (l ++ [Char.ofNat 59])) = String.mk l := by
  simp [dropLastChar, List.dropLast_concat]

/-- C5: in the static-lifetime suggestion builder, a snippet ending in `;`
yields the snippet with the lifetime bound inserted before the terminating
semicolon, a snippet without terminator yields the bound appended at the
end, and the inserted lifetime text is the written name when the region was
named, else the elided placeholder. -/
theorem C5_static_suggestion_patch (s lt : String) (n : RegionName) :
    static_suggestion_text (s ++ ";") lt = s ++ " + " ++ lt ++ ";" ∧
    (endsWithSemicolon s = false → static_suggestion_text s lt = s ++ " + " ++ lt) ∧
    (n.was_named = true → suggestable_fr_name n = n.name) ∧
    (n.was_named = false → suggestable_fr_name n = "\x27_") := by
  refine ⟨?_, ?_, ?_, ?_⟩
  · obtain ⟨l⟩ := s
    have h1 : String.mk l ++ ";" = String.mk (l ++ [Char.ofNat 59]) := rfl
    rw [h1]
    unfold static_suggestion_text
    rw [endsWithSemicolon_concat, dropLastChar_concat]
    rfl
  · intro h
    unfold static_suggestion_text
    rw [h]
    rfl
  · intro h
    unfold suggestable_fr_name
    rw [h]
    rfl
  · intro h
    unfold suggestable_fr_name
    rw [h]
    rfl

/-- Witness for C5 on the concrete example snippets of the spec. -/
theorem C5_static_suggestion_patch_witness :
    static_suggestion_text ("type X = impl Trait" ++ ";") "\x27a" =
      "type X = impl Trait" ++ " + " ++ "\x27a" ++ ";" :=
  (C5_static_suggestion_patch "type X = impl Trait" "\x27a" exName).1

/-- C3: when both variable-name lookups return `None`, or the category is an
assignment with the enclosing construct a plain function, or the enclosing
construct is a const body, the output of the escaping-data reporter is identical
to the output of the generic reporter on the same `ErrorConstraintInfo` with
localities forced `(true, false)`. -/
theorem C3_escaping_data_fallback (ctx : Ctx) (errci : ErrorConstraintInfo)
    (h : (ctx.get_var_name_and_span errci.fr = none ∧
            ctx.get_var_name_and_span errci.outlived_fr = none)
       ∨ (errci.category = ConstraintCategory.Assignment ∧
            ∃ did substs, ctx.defining_ty = DefiningTy.FnDef did substs)
       ∨ (∃ did substs, ctx.defining_ty = DefiningTy.Const did substs)) :
    report_escaping_data_error ctx errci =
      report_general_error ctx
        { errci with fr_is_local := true, outlived_fr_is_local := false } := by
  unfold report_escaping_data_error
  rw [if_pos]
  rcases h with ⟨h1, h2⟩ | ⟨hc, did, substs, hd⟩ | ⟨did, substs, hd⟩
  · exact Or.inl ⟨by simp [h1], by simp [h2]⟩
  · exact Or.inr (Or.inl ⟨hc, by simp [escapes_from, hd]⟩)
  · exact Or.inr (Or.inr (by simp [escapes_from, hd]))

/-- Witness for C3: a context where neither region resolves to a named
variable. -/
theorem C3_escaping_data_fallback_witness :
    report_escaping_data_error exCtxFnMut errci0 =
      report_general_error exCtxFnMut
        { errci0 with fr_is_local := true, outlived_fr_is_local := false } :=
  C3_escaping_data_fallback exCtxFnMut errci0 (Or.inl ⟨rfl, rfl⟩)

/-- C6: the static-lifetime suggestion builder changes the diagnostic only
when `fr` resolves, `outlived_fr` resolves exactly to the static region, and
the opaque return-type lookup succeeds; with an existing static outlives
predicate it emits only the replace-with-static help (no span-anchored
patch); and with no retrievable snippet it leaves the diagnostic unchanged
(silent omission, not an error). -/
theorem C6_static_suggestion_gating (ctx : Ctx) (diag : Diagnostic) (fr : Nat)
    (fr_name : RegionName) (outlived_fr : Nat) :
    ((to_error_region ctx fr = none ∨
        to_error_region ctx outlived_fr ≠ some RegionKind.ReStatic) →
      add_static_impl_trait_suggestion ctx diag fr fr_name outlived_fr = diag) ∧
    (∀ f, to_error_region ctx fr = some f →
      return_impl_trait_opaque ctx f = none →
      add_static_impl_trait_suggestion ctx diag fr fr_name outlived_fr = diag) ∧
    (∀ f did substs, to_error_region ctx fr = some f →
      to_error_region ctx outlived_fr = some RegionKind.ReStatic →
      return_impl_trait_opaque ctx f = some (did, substs) →
      has_static_predicate ctx did substs = true →
      add_static_impl_trait_suggestion ctx diag fr fr_name outlived_fr =
        diag.help ("consider replacing `" ++ fr_name.name ++ "` with `\x27static`")) ∧
    (∀ f did substs, to_error_region ctx fr = some f →
      to_error_region ctx outlived_fr = some RegionKind.ReStatic →
      return_impl_trait_opaque ctx f = some (did, substs) →
      has_static_predicate ctx did substs = false →
      ctx.span_to_snippet (ctx.def_span did) = none →
      add_static_impl_trait_suggestion ctx diag fr fr_name outlived_fr = diag) := by
  refine ⟨?_, ?_, ?_, ?_⟩
  · intro h
    unfold add_static_impl_trait_suggestion
    rcases h with h | h
    · rw [h]
    · cases hf : to_error_region ctx fr with
      | none => rfl
      | some f =>
        cases ho : to_error_region ctx outlived_fr with
        | none => rfl
        | some o => cases o <;> simp_all
  · intro f hf hop
    unfold add_static_impl_trait_suggestion
    rw [hf]
    cases ho : to_error_region ctx outlived_fr with
    | none => rfl
    | some o =>
      cases o with
      | ReStatic => simp only [hop]
      | ReFree br => rfl
      | ReOtherKind => rfl
  · intro f did substs hf ho hop hsp
    unfold add_static_impl_trait_suggestion
    rw [hf, ho]
    simp only [hop, hsp, if_true]
  · intro f did substs hf ho hop hsp hsn
    unfold add_static_impl_trait_suggestion
    rw [hf, ho]
    simp only [hop, hsp, hsn, Bool.false_eq_true, if_false]

/-- Witness for C6: a context with an opaque return type whose bounds carry
a static outlives predicate; only the help text is emitted. -/
theorem C6_static_suggestion_gating_witness :
    add_static_impl_trait_suggestion exCtxStatic exDiag 0 exName 1 =
      exDiag.help ("consider replacing `" ++ exName.name ++ "` with `\x27static`") :=
  (C6_static_suggestion_gating exCtxStatic exDiag 0 exName 1).2.2.1
    (RegionKind.ReFree BoundRegion.BrEnv) 5 9 rfl rfl rfl rfl

/-- The static-lifetime suggestion builder never touches the span labels of
the diagnostic (it only adds helps or span suggestions). -/
theorem add_static_spanLabels (ctx : Ctx) (diag : Diagnostic) (fr : Nat)
    (fr_name : RegionName) (outlived_fr : Nat) :
    (add_static_impl_trait_suggestion ctx diag fr fr_name outlived_fr).spanLabels
      = diag.spanLabels := by
  unfold add_static_impl_trait_suggestion
  split
  · split
    · split
      · simp [Diagnostic.help]
      · split
        · simp [Diagnostic.span_suggestion]
        · rfl
    · rfl
  · rfl

/-- C7: in the generic reporter, given both regions have names, the primary
span label is the supposed-to-return message when the category is `Return`
and `outlived_fr` is local (with function/closure chosen by the body kind),
and otherwise the category description (empty or space-terminated)
concatenated directly with the outlives requirement. -/
theorem C7_general_error_label (ctx : Ctx) (errci : ErrorConstraintInfo)
    (fn ofn : RegionName)
    (h1 : ctx.give_region_a_name errci.fr = some fn)
    (h2 : ctx.give_region_a_name errci.outlived_fr = some ofn) :
    ∃ d, report_general_error ctx errci = some d ∧
      d.spanLabels = fn.highlights ++ ofn.highlights ++
        [(errci.span,
          if errci.category = ConstraintCategory.Return ∧ errci.outlived_fr_is_local = true then
            (if ctx.mir_def_is_closure then "closure" else "function")
              ++ " was supposed to return data with lifetime `" ++ ofn.name
              ++ "` but it is returning data with lifetime `" ++ fn.name ++ "`"
          else
            description errci.category ++ "requires that `" ++ fn.name
              ++ "` must outlive `" ++ ofn.name ++ "`")] := by
  unfold report_general_error
  rw [h1, h2]
  refine ⟨_, rfl, ?_⟩
  by_cases hc : errci.category = ConstraintCategory.Return ∧ errci.outlived_fr_is_local = true
  · simp [hc, add_static_spanLabels, Diagnostic.span_label, highlight_region_name,
      struct_span_err]
  · simp [hc, add_static_spanLabels, Diagnostic.span_label, highlight_region_name,
      struct_span_err]

/-- Witness for C7 at a concrete context where both regions are named. -/
theorem C7_general_error_label_witness :
    ∃ d, report_general_error exCtxGeneral errci0 = some d :=
  Exists.elim (C7_general_error_label exCtxGeneral errci0 exName exName rfl rfl)
    fun d hd => ⟨d, hd.1⟩

/-- C9: the generic reporter requires a display name for both regions: when
the Namer yields a name for each, it produces a diagnostic; when the Namer
yields no name for either region, processing of the diagnostic aborts
(modelled as `none`) rather than proceeding with a partial diagnostic. -/
theorem C9_general_error_name_contract (ctx : Ctx) (errci : ErrorConstraintInfo) :
    ((∃ n, ctx.give_region_a_name errci.fr = some n) →
     (∃ n, ctx.give_region_a_name errci.outlived_fr = some n) →
     ∃ d, report_general_error ctx errci = some d) ∧
    (ctx.give_region_a_name errci.fr = none ∨
       ctx.give_region_a_name errci.outlived_fr = none →
     report_general_error ctx errci = none) := by
  constructor
  · rintro ⟨fn, h1⟩ ⟨ofn, h2⟩
    unfold report_general_error
    rw [h1, h2]
    exact ⟨_, rfl⟩
  · intro h
    unfold report_general_error
    rcases h with h | h
    · rw [h]
    · cases h1 : ctx.give_region_a_name errci.fr with
      | none => rfl
      | some fn => rw [h]

/-- Witness for C9: names present yield a diagnostic; a nameless region
aborts. -/
theorem C9_general_error_name_contract_witness :
    (∃ d, report_general_error exCtxGeneral errci0 = some d) ∧
    report_general_error exCtxNoName errci0 = none :=
  ⟨(C9_general_error_name_contract exCtxGeneral errci0).1 ⟨exName, rfl⟩ ⟨exName, rfl⟩,
   (C9_general_error_name_contract exCtxNoName errci0).2 (Or.inl rfl)⟩

/-- When the nice-region-error sub-reporter succeeds, `report_error` returns
its diagnostic directly. -/
theorem report_error_nice (ctx : Ctx) (fr outlived_fr : Nat)
    (agg : OutlivesSuggestionBuilder) (d : Diagnostic)
    (hn : nice_region_error ctx fr outlived_fr
        (ctx.best_blame_constraint fr outlived_fr).2 = some d) :
    report_error ctx fr outlived_fr agg = ⟨Reporter.niceRegionError, some d, agg⟩ := by
  unfold report_error
  simp only [hn]

/-- When the nice-region-error path fails, `report_error` runs the ordered
dispatch tests of the classifier. -/
theorem report_error_dispatch (ctx : Ctx) (fr outlived_fr : Nat)
    (agg : OutlivesSuggestionBuilder)
    (hn : nice_region_error ctx fr outlived_fr
        (ctx.best_blame_constraint fr outlived_fr).2 = none) :
    report_error ctx fr outlived_fr agg =
      if (ctx.best_blame_constraint fr outlived_fr).1 = ConstraintCategory.Return
          ∧ ctx.is_local_free_region fr = true
          ∧ ctx.is_local_free_region outlived_fr = false
          ∧ is_closure_fn_mut ctx fr = true then
        ⟨Reporter.fnmutEscape,
          report_fnmut_error ctx (mk_error_constraint_info ctx fr outlived_fr), agg⟩
      else if ((ctx.best_blame_constraint fr outlived_fr).1 = ConstraintCategory.Assignment
            ∨ (ctx.best_blame_constraint fr outlived_fr).1 = ConstraintCategory.CallArgument)
          ∧ ctx.is_local_free_region fr = true
          ∧ ctx.is_local_free_region outlived_fr = false then
        ⟨Reporter.escapingData,
          report_escaping_data_error ctx (mk_error_constraint_info ctx fr outlived_fr),
          (agg.intermediate_suggestion
            (mk_error_constraint_info ctx fr outlived_fr)).collect_constraint fr outlived_fr⟩
      else
        ⟨Reporter.general,
          report_general_error ctx (mk_error_constraint_info ctx fr outlived_fr),
          (agg.intermediate_suggestion
            (mk_error_constraint_info ctx fr outlived_fr)).collect_constraint fr outlived_fr⟩ := by
  unfold report_error
  simp only [hn]
  rfl

/-- C10: when both regions resolve to error regions and the nice-region-error
sub-reporter produces a diagnostic, `report_error` returns it immediately:
no specialized reporter runs and the Aggregator is untouched. -/
theorem C10_nice_region_error_path (ctx : Ctx) (fr outlived_fr : Nat)
    (agg : OutlivesSuggestionBuilder) (f o_r : RegionKind) (d : Diagnostic)
    (h1 : to_error_region ctx fr = some f)
    (h2 : to_error_region ctx outlived_fr = some o_r)
    (h3 : ctx.try_report_from_nll (ctx.best_blame_constraint fr outlived_fr).2 o_r f
            = some d) :
    report_error ctx fr outlived_fr agg = ⟨Reporter.niceRegionError, some d, agg⟩ := by
  apply report_error_nice
  unfold nice_region_error
  rw [h1, h2]
  exact h3

/-- Witness for C10 at a concrete context whose nice sub-reporter
succeeds. -/
theorem C10_nice_region_error_path_witness :
    report_error exCtxNice 0 1 ⟨[], []⟩ =
      ⟨Reporter.niceRegionError, some exNiceDiag, ⟨[], []⟩⟩ :=
  C10_nice_region_error_path exCtxNice 0 1 ⟨[], []⟩
    (RegionKind.ReFree BoundRegion.BrEnv) RegionKind.ReStatic exNiceDiag rfl rfl rfl

/-- C1: past the nice-region-error path, the classifier selects the FnMut
escape reporter exactly when the category is `Return`, `fr` is local,
`outlived_fr` is foreign and `fr` resolves to a mutable-capture closure
region; the escaping-data reporter exactly when the category is `Assignment`
or `CallArgument`, `fr` is local and `outlived_fr` is foreign; and the
general reporter otherwise — in particular whenever `fr` is foreign or
`outlived_fr` is local. -/
theorem C1_classifier_dispatch (ctx : Ctx) (fr outlived_fr : Nat)
    (agg : OutlivesSuggestionBuilder)
    (hnice : (report_error ctx fr outlived_fr agg).reporter ≠ Reporter.niceRegionError) :
    ((report_error ctx fr outlived_fr agg).reporter = Reporter.fnmutEscape ↔
       (ctx.best_blame_constraint fr outlived_fr).1 = ConstraintCategory.Return ∧
       ctx.is_local_free_region fr = true ∧
       ctx.is_local_free_region outlived_fr = false ∧
       is_closure_fn_mut ctx fr = true) ∧
    ((report_error ctx fr outlived_fr agg).reporter = Reporter.escapingData ↔
       ((ctx.best_blame_constraint fr outlived_fr).1 = ConstraintCategory.Assignment ∨
        (ctx.best_blame_constraint fr outlived_fr).1 = ConstraintCategory.CallArgument) ∧
       ctx.is_local_free_region fr = true ∧
       ctx.is_local_free_region outlived_fr = false) ∧
    ((ctx.is_local_free_region fr = false ∨ ctx.is_local_free_region outlived_fr = true) →
       (report_error ctx fr outlived_fr agg).reporter = Reporter.general) := by
  cases hn : nice_region_error ctx fr outlived_fr
      (ctx.best_blame_constraint fr outlived_fr).2 with
  | some d =>
    rw [report_error_nice ctx fr outlived_fr agg d hn] at hnice
    exact absurd rfl hnice
  | none =>
    rw [report_error_dispatch ctx fr outlived_fr agg hn]
    by_cases h1 : (ctx.best_blame_constraint fr outlived_fr).1 = ConstraintCategory.Return
        ∧ ctx.is_local_free_region fr = true
        ∧ ctx.is_local_free_region outlived_fr = false
        ∧ is_closure_fn_mut ctx fr = true
    · obtain ⟨hcat, hfl, hol, hfm⟩ := h1
      simp [hcat, hfl, hol, hfm]
    · rw [if_neg h1]
      by_cases h2 : ((ctx.best_blame_constraint fr outlived_fr).1 = ConstraintCategory.Assignment
            ∨ (ctx.best_blame_constraint fr outlived_fr).1 = ConstraintCategory.CallArgument)
          ∧ ctx.is_local_free_region fr = true
          ∧ ctx.is_local_free_region outlived_fr = false
      · rw [if_pos h2]
        obtain ⟨hcat2, hfl, hol⟩ := h2
        refine ⟨⟨fun habs => Reporter.noConfusion habs, fun hp => absurd hp h1⟩,
          ⟨fun _ => ⟨hcat2, hfl, hol⟩, fun _ => rfl⟩, fun h => ?_⟩
        rcases h with h | h
        · rw [hfl] at h
          exact Bool.noConfusion h
        · rw [hol] at h
          exact Bool.noConfusion h
      · rw [if_neg h2]
        exact ⟨⟨fun habs => Reporter.noConfusion habs, fun hp => absurd hp h1⟩,
          ⟨fun habs => Reporter.noConfusion habs, fun hp => absurd hp h2⟩,
          fun _ => rfl⟩

/-- Witness for C1: the FnMut context dispatches to the mutable-capture
escape reporter. -/
theorem C1_classifier_dispatch_witness :
    (report_error exCtxFnMut 0 1 ⟨[], []⟩).reporter = Reporter.fnmutEscape :=
  ((C1_classifier_dispatch exCtxFnMut 0 1 ⟨[], []⟩ (by decide)).1).mpr
    ⟨rfl, rfl, rfl, by decide⟩

/-- Counterexample for C2 as stated: in a context dispatched to the
mutable-capture escape reporter, `report_error` returns with the suggestion
Aggregator unchanged — the FnMut branch feeds neither
`intermediate_suggestion` nor `collect_constraint`. -/
theorem C2_counterexample_fnmut_skips_aggregator :
    (report_error exCtxFnMut 0 1 ⟨[], []⟩).reporter = Reporter.fnmutEscape ∧
    (report_error exCtxFnMut 0 1 ⟨[], []⟩).agg = ⟨[], []⟩ := by
  exact ⟨by decide, by decide⟩

/-- C2 (amended): the escaping-data and generic dispatch branches feed the
pair `(fr, outlived_fr)` and the `ErrorConstraintInfo` into the Aggregator
(`intermediate_suggestion`, then `collect_constraint`) before returning; the
mutable-capture escape branch and the nice-region-error path return with the
Aggregator unchanged. -/
theorem C2_amended_aggregator_feeding (ctx : Ctx) (fr outlived_fr : Nat)
    (agg : OutlivesSuggestionBuilder) :
    ((report_error ctx fr outlived_fr agg).reporter = Reporter.escapingData ∨
     (report_error ctx fr outlived_fr agg).reporter = Reporter.general →
       (report_error ctx fr outlived_fr agg).agg =
         (agg.intermediate_suggestion
           (mk_error_constraint_info ctx fr outlived_fr)).collect_constraint fr outlived_fr) ∧
    ((report_error ctx fr outlived_fr agg).reporter = Reporter.fnmutEscape ∨
     (report_error ctx fr outlived_fr agg).reporter = Reporter.niceRegionError →
       (report_error ctx fr outlived_fr agg).agg = agg) := by
  cases hn : nice_region_error ctx fr outlived_fr
      (ctx.best_blame_constraint fr outlived_fr).2 with
  | some d =>
    rw [report_error_nice ctx fr outlived_fr agg d hn]
    refine ⟨fun h => ?_, fun _ => rfl⟩
    rcases h with h | h <;> exact Reporter.noConfusion h
  | none =>
    rw [report_error_dispatch ctx fr outlived_fr agg hn]
    by_cases h1 : (ctx.best_blame_constraint fr outlived_fr).1 = ConstraintCategory.Return
        ∧ ctx.is_local_free_region fr = true
        ∧ ctx.is_local_free_region outlived_fr = false
        ∧ is_closure_fn_mut ctx fr = true
    · rw [if_pos h1]
      refine ⟨fun h => ?_, fun _ => rfl⟩
      rcases h with h | h <;> exact Reporter.noConfusion h
    · rw [if_neg h1]
      by_cases h2 : ((ctx.best_blame_constraint fr outlived_fr).1 = ConstraintCategory.Assignment
            ∨ (ctx.best_blame_constraint fr outlived_fr).1 = ConstraintCategory.CallArgument)
          ∧ ctx.is_local_free_region fr = true
          ∧ ctx.is_local_free_region outlived_fr = false
      · rw [if_pos h2]
        refine ⟨fun _ => rfl, fun h => ?_⟩
        rcases h with h | h <;> exact Reporter.noConfusion h
      · rw [if_neg h2]
        refine ⟨fun _ => rfl, fun h => ?_⟩
        rcases h with h | h <;> exact Reporter.noConfusion h

/-- Witness for the amended C2: the general branch feeds the Aggregator. -/
theorem C2_amended_aggregator_feeding_witness :
    (report_error exCtxGeneral 0 1 ⟨[], []⟩).agg =
      (OutlivesSuggestionBuilder.intermediate_suggestion ⟨[], []⟩
        (mk_error_constraint_info exCtxGeneral 0 1)).collect_constraint 0 1 :=
  (C2_amended_aggregator_feeding exCtxGeneral 0 1 ⟨[], []⟩).1 (Or.inr (by decide))

end RegionErrors
